import Mathlib

/-!
Verification of `f5_openstack_agent/lbaasv2/drivers/bigip/tenants.py`
(`BigipTenantManager`): partition creation (`assure_tenant_created`) and the
per-appliance teardown protocol (`_remove_tenant_replication_mode`,
`_partition_empty`).

The device, the external callbacks and the helper modules are modelled as an
environment of outcome oracles; the orchestration logic of `tenants.py` is
translated function by function.  Every externally visible call the
orchestrator makes (resource delete, sleep, fabric cleanup, port
deallocation, route-domain delete, folder delete) is recorded in an event
trace, and a raised Python exception is an `Option Err` result.
-/

namespace Tenants

/-- The resource kinds of `resource_helper.ResourceType` used by `tenants.py`. -/
inductive ResourceType
  | virtual_address
  | node
  | snat
  | snatpool
  | snat_translation
  | selfip
  | vlan
deriving DecidableEq, Repr

/-- A resource instance returned by `helper.get_resources`: a stable name and,
for vlan, the numeric tag read by `r.tag` (line 143). -/
structure Resource where
  name : String
  tag : Nat := 0
deriving DecidableEq, Repr

/-- A raised Python error, classified the way lines 149-159 classify it:
`HTTPError` with a status code, or any other exception. -/
inductive Err
  | http (status : Nat)
  | other (msg : String)
deriving DecidableEq, Repr

/-- One externally visible call made during teardown, with its outcome
(`none` = the call returned, `some e` = it raised `e`). -/
inductive Event
  | deleteCall (rtype : ResourceType) (name : String) (result : Option Err)
  | sleepCall (interval : Nat)
  | fabricCleanup (tag : Nat) (result : Option Err)
  | portDealloc (name : String) (result : Option Err)
  | deleteRouteDomain (name : String) (result : Option Err)
  | deleteFolder (partition : String) (result : Option Err)
deriving DecidableEq, Repr

/-- The environment: outcome oracles for every fallible external call.
`deleteOutcome rtype name a` is what the `a`-th (1-based) `r.delete()` on that
resource raises; `cleanupOutcome tag a` what
`l2_service._delete_f5os_vlan_network(hostname, tag)` raises when invoked
during attempt `a`; the rest are keyed by name. -/
structure Env where
  deleteOutcome : ResourceType → String → Nat → Option Err
  cleanupOutcome : Nat → Nat → Option Err
  portDeallocOutcome : String → Option Err
  routeDomainOutcome : String → Option Err
  folderOutcome : Option Err

/-- The appliance-visible state of one tenant partition: the catalog read by
`helper.get_resources(bigip, partition)` per resource type, the route-domain
names read by `network_helper.get_route_domain_names` (line 101), and whether
the folder itself exists. -/
structure BigIPState where
  resources : ResourceType → List Resource
  routeDomains : List String
  folderExists : Bool

/-- The `tag` local of lines 141-143: `0`, overwritten with `r.tag` only when
the resource type is vlan. -/
def effTag (rtype : ResourceType) (r : Resource) : Nat :=
  if rtype = ResourceType.vlan then r.tag else 0

/-- One iteration of the while-loop body (lines 139-159) at 1-based attempt
`a`: run `r.delete()`, then the fabric cleanup when the tag is non-zero
(lines 144-148); an `HTTPError` with status 401 sleeps and retries unless
this was the last attempt (lines 149-156), any other `HTTPError` status falls
out of the handler without raising, and any other exception re-raises
(lines 157-159).  Result `none` means the loop proceeds to its next
iteration; `some e` means the iteration raised `e`. -/
def deleteAttempt (env : Env) (rtype : ResourceType) (r : Resource) (a : Nat) :
    List Event × Option Err :=
  match env.deleteOutcome rtype r.name a with
  | some (Err.http status) =>
      if status = 401 then
        if a < 3 then
          ([Event.deleteCall rtype r.name (some (Err.http status)),
            Event.sleepCall 1], none)
        else
          ([Event.deleteCall rtype r.name (some (Err.http status))],
           some (Err.http status))
      else
        ([Event.deleteCall rtype r.name (some (Err.http status))], none)
  | some (Err.other m) =>
      ([Event.deleteCall rtype r.name (some (Err.other m))], some (Err.other m))
  | none =>
      let t := effTag rtype r
      if t = 0 then
        ([Event.deleteCall rtype r.name none], none)
      else
        match env.cleanupOutcome t a with
        | none =>
            ([Event.deleteCall rtype r.name none, Event.fabricCleanup t none],
             none)
        | some (Err.http status) =>
            if status = 401 then
              if a < 3 then
                ([Event.deleteCall rtype r.name none,
                  Event.fabricCleanup t (some (Err.http status)),
                  Event.sleepCall 1], none)
              else
                ([Event.deleteCall rtype r.name none,
                  Event.fabricCleanup t (some (Err.http status))],
                 some (Err.http status))
            else
              ([Event.deleteCall rtype r.name none,
                Event.fabricCleanup t (some (Err.http status))], none)
        | some (Err.other m) =>
            ([Event.deleteCall rtype r.name none,
              Event.fabricCleanup t (some (Err.other m))],
             some (Err.other m))

/-- The `while attempt < max_attempt` loop of lines 135-159, unrolled on the
remaining iteration count: runs iterations at attempts `a, a+1, ...` until an
iteration raises or the fuel (initially `max_attempt = 3`) is spent. -/
def deleteLoop (env : Env) (rtype : ResourceType) (r : Resource) :
    Nat → Nat → List Event × Option Err
  | _, 0 => ([], none)
  | a, fuel + 1 =>
      match (deleteAttempt env rtype r a).2 with
      | some e => ((deleteAttempt env rtype r a).1, some e)
      | none =>
          ((deleteAttempt env rtype r a).1 ++ (deleteLoop env rtype r (a + 1) fuel).1,
           (deleteLoop env rtype r (a + 1) fuel).2)

/-- Deleting one resource with the full retry loop: `max_attempt = 3`,
`interval = 1`, `attempt = 0` (lines 135-137). -/
def retryDelete (env : Env) (rtype : ResourceType) (r : Resource) :
    List Event × Option Err :=
  deleteLoop env rtype r 1 3

/-- Run a fallible body over a list, stopping at (and propagating) the first
raised error: a Python `for` loop whose body may raise. -/
def seqRun {α : Type} (f : α → List Event × Option Err) :
    List α → List Event × Option Err
  | [] => ([], none)
  | x :: xs =>
      match (f x).2 with
      | some e => ((f x).1, some e)
      | none => ((f x).1 ++ (seqRun f xs).1, (seqRun f xs).2)

/-- The type list of lines 111-114. -/
def bestEffortTypes : List ResourceType :=
  [ResourceType.snat_translation, ResourceType.selfip]

/-- The best-effort phase of lines 115-123: for each snat-translation and
self-ip instance try `plugin_rpc.delete_port_by_name`; every exception is
caught and logged, so the phase only produces events and never raises. -/
def bestEffortEvents (st : BigIPState) (env : Env) : List Event :=
  bestEffortTypes.flatMap fun t =>
    (st.resources t).map fun r =>
      Event.portDealloc r.name (env.portDeallocOutcome r.name)

/-- The type list of lines 124-130, in source order. -/
def requiredTypes : List ResourceType :=
  [ResourceType.snat, ResourceType.snatpool, ResourceType.snat_translation,
   ResourceType.selfip, ResourceType.vlan]

/-- The required deletion phase of lines 131-159: for each type in order, for
each instance, run the retrying delete; a raised error propagates. -/
def requiredPhase (st : BigIPState) (env : Env) : List Event × Option Err :=
  seqRun (fun t => seqRun (retryDelete env t) (st.resources t)) requiredTypes

/-- The route-domain phase of lines 162-171: delete every route-domain name
collected at line 101; any failure is re-raised unchanged. -/
def routeDomainPhase (st : BigIPState) (env : Env) : List Event × Option Err :=
  seqRun
    (fun d => ([Event.deleteRouteDomain d (env.routeDomainOutcome d)],
               env.routeDomainOutcome d))
    st.routeDomains

/-- Modelled from the spec: `SystemHelper.delete_folder` (lines 173-179 call
it; `system_helper.py` is not under src/).  Per the spec's delete-if-exists
semantics ("idempotent catalog reads, delete-if-exists semantics";
`NotFoundError` treated as success), deleting an absent folder is a no-op
success; deleting an existing folder issues the delete call, whose failure is
re-raised (lines 175-179). -/
def deleteFolderCall (st : BigIPState) (env : Env) (partition : String) :
    List Event × Option Err :=
  if st.folderExists then
    ([Event.deleteFolder partition env.folderOutcome], env.folderOutcome)
  else
    ([], none)

/-- `_partition_empty` (lines 181-189): reads the virtual-address and node
catalogs; `if not nodes and not virtual_addresses: return True; return False`. -/
def partition_empty (st : BigIPState) : Bool :=
  let virtual_addresses := st.resources ResourceType.virtual_address
  let nodes := st.resources ResourceType.node
  if nodes.isEmpty && virtual_addresses.isEmpty then true else false

/-- `_remove_tenant_replication_mode` (lines 98-179) for one appliance:
read the route-domain names (line 101), gate on `_partition_empty`
(lines 104-106, returning without any call when non-empty), then run the
best-effort phase, the required deletion phase, the route-domain phase and
the folder deletion in sequence, each raised error aborting the rest.
The `domain_names` list read at line 101 and iterated at line 162 is
`st.routeDomains`, which `routeDomainPhase` reads; `st` is immutable within
one invocation, so the two reads coincide. -/
def remove_tenant_replication_mode (st : BigIPState) (env : Env)
    (partition : String) : List Event × Option Err :=
  if partition_empty st = false then
    ([], none)
  else
    let be := bestEffortEvents st env
    match (requiredPhase st env).2 with
    | some e => (be ++ (requiredPhase st env).1, some e)
    | none =>
        match (routeDomainPhase st env).2 with
        | some e =>
            (be ++ (requiredPhase st env).1 ++ (routeDomainPhase st env).1,
             some e)
        | none =>
            (be ++ (requiredPhase st env).1 ++ (routeDomainPhase st env).1
                ++ (deleteFolderCall st env partition).1,
             (deleteFolderCall st env partition).2)

/-- The device-side effect of one successful teardown event: a successful
delete removes the instance from its catalog, a successful route-domain
delete removes the name, a successful folder delete removes the folder;
failed calls and non-mutating calls change nothing. -/
def applyEvent (st : BigIPState) : Event → BigIPState
  | Event.deleteCall t n none =>
      { st with
        resources := fun t' =>
          if t' = t then (st.resources t').filter (fun r => r.name ≠ n)
          else st.resources t' }
  | Event.deleteRouteDomain d none =>
      { st with routeDomains := st.routeDomains.filter (fun d' => d' ≠ d) }
  | Event.deleteFolder _ none => { st with folderExists := false }
  | _ => st

def applyEvents (st : BigIPState) (evs : List Event) : BigIPState :=
  evs.foldl applyEvent st

/-- One teardown invocation together with the appliance state it leaves
behind. -/
def runTeardown (st : BigIPState) (env : Env) (partition : String) :
    BigIPState × List Event × Option Err :=
  (applyEvents st (remove_tenant_replication_mode st env partition).1,
   remove_tenant_replication_mode st env partition)

/-! ### Partition creation (`assure_tenant_created`, lines 49-83) -/

/-- The slice of the `service` dict that `assure_tenant_created` touches:
the tenant id (line 61), the `"traffic_group"` key it writes (line 64), and
the `'bigips'` list it iterates (line 69), each appliance by hostname. -/
structure Service where
  tenant_id : String
  traffic_group : Option String
  bigips : List String
deriving DecidableEq, Repr

/-- The environment of `assure_tenant_created`: `driver.get_traffic_group_1()`
(line 62), `service_adapter.get_folder_name` (line 67),
`system_helper.folder_exists(bigip, folder_name)` (line 70) and the outcome of
`system_helper.create_folder` per appliance (line 75). -/
structure CreateEnv where
  get_traffic_group_1 : String
  get_folder_name : String → String
  folder_exists : String → String → Bool
  create_outcome : String → Option Err

/-- A folder-creation call against one appliance, with its outcome. -/
inductive CreateEvent
  | create_folder (bigip : String) (result : Option Err)
deriving DecidableEq, Repr

/-- The error `assure_tenant_created` raises: any `create_folder` failure is
wrapped into `SystemCreationException` naming the tenant (lines 76-83). -/
inductive CreateErr
  | SystemCreationException (tenant_id : String)
deriving DecidableEq, Repr

/-- The `for bigip in service['bigips']` loop of lines 69-83: skip appliances
where the folder exists; otherwise create it, wrapping any failure and
stopping. -/
def createLoop (env : CreateEnv) (folder_name tenant_id : String) :
    List String → List CreateEvent × Option CreateErr
  | [] => ([], none)
  | b :: bs =>
      if env.folder_exists b folder_name then
        createLoop env folder_name tenant_id bs
      else
        match env.create_outcome b with
        | none =>
            let (evs, res) := createLoop env folder_name tenant_id bs
            (CreateEvent.create_folder b none :: evs, res)
        | some e =>
            ([CreateEvent.create_folder b (some e)],
             some (CreateErr.SystemCreationException tenant_id))

/-- `assure_tenant_created` (lines 49-83): write the resolved traffic group
into the service dict (lines 62-64), then create the folder on every
appliance that lacks it.  Returns the mutated service, the create calls made,
and the raised error when one occurred. -/
def assure_tenant_created (env : CreateEnv) (service : Service) :
    Service × List CreateEvent × Option CreateErr :=
  let traffic_group := "/Common/" ++ env.get_traffic_group_1
  let service1 := { service with traffic_group := some traffic_group }
  let folder_name := env.get_folder_name service.tenant_id
  (service1, createLoop env folder_name service.tenant_id service.bigips)

/-! ### Trace observations -/

/-- How many `r.delete()` calls the trace records for one resource. -/
def countDeleteCalls (t : ResourceType) (n : String) (evs : List Event) : Nat :=
  (evs.filter fun e =>
    match e with
    | Event.deleteCall t' n' _ => t' = t && n' = n
    | _ => false).length

/-- How many sleeps the trace records. -/
def countSleeps (evs : List Event) : Nat :=
  (evs.filter fun e =>
    match e with
    | Event.sleepCall _ => true
    | _ => false).length

/-- Whether an event is a mutating call against the appliance or the fabric
that succeeded (the failed calls are no-ops on the device). -/
def isSuccessfulMutation : Event → Bool
  | Event.deleteCall _ _ none => true
  | Event.fabricCleanup _ none => true
  | Event.deleteRouteDomain _ none => true
  | Event.deleteFolder _ none => true
  | _ => false

/-- Whether an event is the folder deletion. -/
def isFolderDelete : Event → Bool
  | Event.deleteFolder _ _ => true
  | _ => false

/-- Whether an event is a best-effort port deallocation. -/
def isPortDealloc : Event → Bool
  | Event.portDealloc _ _ => true
  | _ => false

/-- The position of each resource type in the required phase's fixed order
(the load-bearing types never appear in a teardown trace; their rank is a
dummy). -/
def typeRank : ResourceType → Nat
  | ResourceType.snat => 0
  | ResourceType.snatpool => 1
  | ResourceType.snat_translation => 2
  | ResourceType.selfip => 3
  | ResourceType.vlan => 4
  | ResourceType.virtual_address => 0
  | ResourceType.node => 0

/-- The position of a deletion event in the teardown's fixed phase order
(`none` for sleeps and for the best-effort port deallocations, which are not
deletions): snat 0, snatpool 1, snat-translation 2, selfip 3, vlan and its
fabric cleanup 4, route domains 5, the folder 6. -/
def phaseRank : Event → Option Nat
  | Event.deleteCall t _ _ => some (typeRank t)
  | Event.fabricCleanup _ _ => some 4
  | Event.deleteRouteDomain _ _ => some 5
  | Event.deleteFolder _ _ => some 6
  | _ => none

/-- The ranks of the deletion events of a trace, in trace order. -/
def deletionRanks (evs : List Event) : List Nat :=
  evs.filterMap phaseRank

/-! ### Helper lemmas about the sequencing combinator -/

theorem mem_seqRun {α : Type} {f : α → List Event × Option Err} :
    ∀ {xs : List α} {e : Event}, e ∈ (seqRun f xs).1 → ∃ x ∈ xs, e ∈ (f x).1 := by
  intro xs
  induction xs with
  | nil => intro e h; simp [seqRun] at h
  | cons x xs ih =>
      intro e h
      cases hfx : (f x).2 with
      | some err =>
          simp only [seqRun, hfx] at h
          exact ⟨x, by simp, h⟩
      | none =>
          simp only [seqRun, hfx, List.mem_append] at h
          rcases h with h | h
          · exact ⟨x, by simp, h⟩
          · rcases ih h with ⟨y, hy, he⟩
            exact ⟨y, by simp [hy], he⟩

theorem seqRun_res_none {α : Type} {f : α → List Event × Option Err} :
    ∀ {xs : List α} {x : α}, (seqRun f xs).2 = none → x ∈ xs → (f x).2 = none := by
  intro xs
  induction xs with
  | nil => intro x _ hx; simp at hx
  | cons y ys ih =>
      intro x h hx
      cases hfy : (f y).2 with
      | some err => simp [seqRun, hfy] at h
      | none =>
          simp only [seqRun, hfy] at h
          rcases List.mem_cons.mp hx with hx | hx
          · subst hx; exact hfy
          · exact ih h hx

theorem subset_seqRun {α : Type} {f : α → List Event × Option Err} :
    ∀ {xs : List α} {x : α} {e : Event},
      (seqRun f xs).2 = none → x ∈ xs → e ∈ (f x).1 → e ∈ (seqRun f xs).1 := by
  intro xs
  induction xs with
  | nil => intro x e _ hx; simp at hx
  | cons y ys ih =>
      intro x e h hx he
      cases hfy : (f y).2 with
      | some err => simp [seqRun, hfy] at h
      | none =>
          simp only [seqRun, hfy, List.mem_append]
          rcases List.mem_cons.mp hx with hx | hx
          · subst hx; exact Or.inl he
          · simp only [seqRun, hfy] at h
            exact Or.inr (ih h hx he)

/-! ### Shape lemmas about one retrying delete -/

theorem effTag_ne_zero {t : ResourceType} {r : Resource} (h : effTag t r ≠ 0) :
    t = ResourceType.vlan ∧ effTag t r = r.tag := by
  by_cases ht : t = ResourceType.vlan
  · exact ⟨ht, by simp [effTag, ht]⟩
  · exact absurd (by simp [effTag, ht]) h

/-- Every event of one loop iteration is a delete call on the given resource,
a sleep, or (only for vlan) the fabric cleanup of the resource's tag. -/
theorem mem_deleteAttempt {env : Env} {t : ResourceType} {r : Resource} {a : Nat}
    {e : Event} (h : e ∈ (deleteAttempt env t r a).1) :
    (∃ res, e = Event.deleteCall t r.name res) ∨ e = Event.sleepCall 1 ∨
      (t = ResourceType.vlan ∧ ∃ res, e = Event.fabricCleanup r.tag res) := by
  have hd : ∀ res, e = Event.deleteCall t r.name res →
      (∃ res, e = Event.deleteCall t r.name res) ∨ e = Event.sleepCall 1 ∨
        (t = ResourceType.vlan ∧ ∃ res, e = Event.fabricCleanup r.tag res) :=
    fun res he => Or.inl ⟨res, he⟩
  have hsl : e = Event.sleepCall 1 →
      (∃ res, e = Event.deleteCall t r.name res) ∨ e = Event.sleepCall 1 ∨
        (t = ResourceType.vlan ∧ ∃ res, e = Event.fabricCleanup r.tag res) :=
    fun he => Or.inr (Or.inl he)
  have hfc : effTag t r ≠ 0 → ∀ res, e = Event.fabricCleanup (effTag t r) res →
      (∃ res, e = Event.deleteCall t r.name res) ∨ e = Event.sleepCall 1 ∨
        (t = ResourceType.vlan ∧ ∃ res, e = Event.fabricCleanup r.tag res) := by
    intro hne res he
    obtain ⟨hvlan, htag⟩ := effTag_ne_zero hne
    exact Or.inr (Or.inr ⟨hvlan, res, by rw [he, htag]⟩)
  cases hdo : env.deleteOutcome t r.name a with
  | some err =>
      cases err with
      | http s =>
          by_cases hs : s = 401
          · by_cases ha : a < 3
            · simp [deleteAttempt, hdo, hs, ha, List.mem_cons,
                List.not_mem_nil, or_false] at h
              rcases h with h | h
              · exact hd _ h
              · exact hsl h
            · simp [deleteAttempt, hdo, hs, ha, if_true, if_false,
                List.mem_cons, List.not_mem_nil, or_false] at h
              exact hd _ h
          · simp [deleteAttempt, hdo, hs, if_false, List.mem_cons,
              List.not_mem_nil, or_false] at h
            exact hd _ h
      | other m =>
          simp [deleteAttempt, hdo, List.mem_cons, List.not_mem_nil,
            or_false] at h
          exact hd _ h
  | none =>
      by_cases ht : effTag t r = 0
      · simp [deleteAttempt, hdo, ht, List.mem_cons,
          List.not_mem_nil, or_false] at h
        exact hd _ h
      · cases hcl : env.cleanupOutcome (effTag t r) a with
        | none =>
            simp [deleteAttempt, hdo, ht, hcl, if_false, List.mem_cons,
              List.not_mem_nil, or_false] at h
            rcases h with h | h
            · exact hd _ h
            · exact hfc ht _ h
        | some err =>
            cases err with
            | http s =>
                by_cases hs : s = 401
                · by_cases ha : a < 3
                  · simp [deleteAttempt, hdo, ht, hcl, hs, ha, List.mem_cons, List.not_mem_nil, or_false] at h
                    rcases h with h | h | h
                    · exact hd _ h
                    · exact hfc ht _ h
                    · exact hsl h
                  · simp [deleteAttempt, hdo, ht, hcl, hs, ha, List.mem_cons, List.not_mem_nil, or_false] at h
                    rcases h with h | h
                    · exact hd _ h
                    · exact hfc ht _ h
                · simp [deleteAttempt, hdo, ht, hcl, hs, if_false,
                    List.mem_cons, List.not_mem_nil, or_false] at h
                  rcases h with h | h
                  · exact hd _ h
                  · exact hfc ht _ h
            | other m =>
                simp [deleteAttempt, hdo, ht, hcl, List.mem_cons,
                  List.not_mem_nil, or_false] at h
                rcases h with h | h
                · exact hd _ h
                · exact hfc ht _ h

/-- The shape of `mem_deleteAttempt`, lifted through the whole retry loop. -/
theorem mem_deleteLoop {env : Env} {t : ResourceType} {r : Resource} :
    ∀ {fuel a : Nat} {e : Event}, e ∈ (deleteLoop env t r a fuel).1 →
      (∃ res, e = Event.deleteCall t r.name res) ∨ e = Event.sleepCall 1 ∨
        (t = ResourceType.vlan ∧ ∃ res, e = Event.fabricCleanup r.tag res) := by
  intro fuel
  induction fuel with
  | zero => intro a e h; simp [deleteLoop] at h
  | succ n ih =>
      intro a e h
      cases hda : (deleteAttempt env t r a).2 with
      | some err =>
          simp only [deleteLoop, hda] at h
          exact mem_deleteAttempt h
      | none =>
          simp only [deleteLoop, hda, List.mem_append] at h
          rcases h with h | h
          · exact mem_deleteAttempt h
          · exact ih h

theorem mem_retryDelete {env : Env} {t : ResourceType} {r : Resource} {e : Event}
    (h : e ∈ (retryDelete env t r).1) :
    (∃ res, e = Event.deleteCall t r.name res) ∨ e = Event.sleepCall 1 ∨
      (t = ResourceType.vlan ∧ ∃ res, e = Event.fabricCleanup r.tag res) :=
  mem_deleteLoop h

/-- Every loop iteration starts by calling `r.delete()`: the first trace entry
is the delete call with that attempt's oracle outcome. -/
theorem deleteAttempt_head (env : Env) (t : ResourceType) (r : Resource) (a : Nat) :
    ∃ rest, (deleteAttempt env t r a).1
      = Event.deleteCall t r.name (env.deleteOutcome t r.name a) :: rest := by
  cases hdo : env.deleteOutcome t r.name a with
  | some err =>
      cases err with
      | http s =>
          by_cases hs : s = 401
          · by_cases ha : a < 3
            · exact ⟨[Event.sleepCall 1], by simp [deleteAttempt, hdo, hs, ha]⟩
            · exact ⟨[], by simp [deleteAttempt, hdo, hs, ha]⟩
          · exact ⟨[], by simp [deleteAttempt, hdo, hs]⟩
      | other m => exact ⟨[], by simp [deleteAttempt, hdo]⟩
  | none =>
      by_cases ht : effTag t r = 0
      · exact ⟨[], by simp [deleteAttempt, hdo, ht]⟩
      · cases hcl : env.cleanupOutcome (effTag t r) a with
        | none =>
            exact ⟨[Event.fabricCleanup (effTag t r) none],
              by simp [deleteAttempt, hdo, ht, hcl]⟩
        | some err =>
            cases err with
            | http s =>
                by_cases hs : s = 401
                · by_cases ha : a < 3
                  · exact ⟨[Event.fabricCleanup (effTag t r) (some (Err.http s)),
                      Event.sleepCall 1], by simp [deleteAttempt, hdo, ht, hcl, hs, ha]⟩
                  · exact ⟨[Event.fabricCleanup (effTag t r) (some (Err.http s))],
                      by simp [deleteAttempt, hdo, ht, hcl, hs, ha]⟩
                · exact ⟨[Event.fabricCleanup (effTag t r) (some (Err.http s))],
                    by simp [deleteAttempt, hdo, ht, hcl, hs]⟩
            | other m =>
                exact ⟨[Event.fabricCleanup (effTag t r) (some (Err.other m))],
                  by simp [deleteAttempt, hdo, ht, hcl]⟩

/-- The whole retrying delete's trace starts with the first `r.delete()` call. -/
theorem retryDelete_head (env : Env) (t : ResourceType) (r : Resource) :
    ∃ rest, (retryDelete env t r).1
      = Event.deleteCall t r.name (env.deleteOutcome t r.name 1) :: rest := by
  obtain ⟨rest, hrest⟩ := deleteAttempt_head env t r 1
  cases hda : (deleteAttempt env t r 1).2 with
  | some err =>
      refine ⟨rest, ?_⟩
      show (deleteLoop env t r 1 3).1 = _
      simp [deleteLoop, hda, hrest]
  | none =>
      refine ⟨rest ++ (deleteLoop env t r 2 2).1, ?_⟩
      show (deleteLoop env t r 1 3).1 = _
      simp [deleteLoop, hda, hrest]

/-- Every best-effort event is a port deallocation. -/
theorem mem_bestEffort {st : BigIPState} {env : Env} {e : Event}
    (h : e ∈ bestEffortEvents st env) :
    ∃ n res, e = Event.portDealloc n res := by
  simp only [bestEffortEvents, List.mem_flatMap, List.mem_map] at h
  obtain ⟨t, _, r, _, hr⟩ := h
  exact ⟨r.name, env.portDeallocOutcome r.name, hr.symm⟩

/-- Every route-domain-phase event is a route-domain delete. -/
theorem mem_routeDomainPhase {st : BigIPState} {env : Env} {e : Event}
    (h : e ∈ (routeDomainPhase st env).1) :
    ∃ d res, e = Event.deleteRouteDomain d res := by
  obtain ⟨d, _, hd⟩ := mem_seqRun h
  simp only [List.mem_singleton] at hd
  exact ⟨d, env.routeDomainOutcome d, hd⟩

/-- Every required-phase event is a delete call on one of the required types,
a sleep, or a vlan fabric cleanup. -/
theorem mem_requiredPhase {st : BigIPState} {env : Env} {e : Event}
    (h : e ∈ (requiredPhase st env).1) :
    ∃ t ∈ requiredTypes,
      (∃ n res, e = Event.deleteCall t n res) ∨ e = Event.sleepCall 1 ∨
        (t = ResourceType.vlan ∧ ∃ tg res, e = Event.fabricCleanup tg res) := by
  obtain ⟨t, hty, hmem⟩ := mem_seqRun h
  obtain ⟨r, _, hr⟩ := mem_seqRun hmem
  refine ⟨t, hty, ?_⟩
  rcases mem_retryDelete hr with ⟨res, hres⟩ | hsl | ⟨hvlan, res, hres⟩
  · exact Or.inl ⟨r.name, res, hres⟩
  · exact Or.inr (Or.inl hsl)
  · exact Or.inr (Or.inr ⟨hvlan, r.tag, res, hres⟩)

/-! ### Ordering of the deletion phases -/

theorem sorted_of_all_eq {l : List Nat} {c : Nat} (h : ∀ k ∈ l, k = c) :
    l.Sorted (· ≤ ·) := by
  induction l with
  | nil => exact List.sorted_nil
  | cons a l ih =>
      rw [List.sorted_cons]
      refine ⟨?_, ih fun k hk => h k (List.mem_cons_of_mem _ hk)⟩
      intro b hb
      rw [h a (List.mem_cons_self _ _), h b (List.mem_cons_of_mem _ hb)]

theorem sorted_append_le {l1 l2 : List Nat} {c : Nat}
    (h1 : l1.Sorted (· ≤ ·)) (h2 : l2.Sorted (· ≤ ·))
    (hb1 : ∀ a ∈ l1, a ≤ c) (hb2 : ∀ b ∈ l2, c ≤ b) :
    (l1 ++ l2).Sorted (· ≤ ·) :=
  List.pairwise_append.mpr
    ⟨h1, h2, fun a ha b hb => le_trans (hb1 a ha) (hb2 b hb)⟩

/-- The ranks of a phase-sequenced trace are sorted when each segment's
deletion events carry that segment's rank and the segments run in
nondecreasing rank order. -/
theorem seqRun_ranks_sorted {α : Type} {f : α → List Event × Option Err}
    {g : α → Nat} :
    ∀ {xs : List α},
      (∀ x ∈ xs, ∀ e ∈ (f x).1, ∀ k, phaseRank e = some k → k = g x) →
      List.Pairwise (fun a b => g a ≤ g b) xs →
      ((seqRun f xs).1.filterMap phaseRank).Sorted (· ≤ ·) := by
  intro xs
  induction xs with
  | nil => intro _ _; simp [seqRun]
  | cons x xs ih =>
      intro hseg hp
      have hx : ∀ k ∈ (f x).1.filterMap phaseRank, k = g x := by
        intro k hk
        obtain ⟨e, he, hpe⟩ := List.mem_filterMap.mp hk
        exact hseg x (List.mem_cons_self _ _) e he k hpe
      cases hfx : (f x).2 with
      | some err =>
          simp only [seqRun, hfx]
          exact sorted_of_all_eq hx
      | none =>
          simp only [seqRun, hfx, List.filterMap_append]
          refine List.pairwise_append.mpr
            ⟨sorted_of_all_eq hx, ih ?_ (List.pairwise_cons.mp hp).2, ?_⟩
          · intro y hy e he k hk
            exact hseg y (List.mem_cons_of_mem _ hy) e he k hk
          · intro a ha b hb
            rw [hx a ha]
            obtain ⟨e, he, hpe⟩ := List.mem_filterMap.mp hb
            obtain ⟨y, hy, hey⟩ := mem_seqRun he
            rw [hseg y (List.mem_cons_of_mem _ hy) e hey b hpe]
            exact (List.pairwise_cons.mp hp).1 y hy

theorem ranks_of_seg {α : Type} {f : α → List Event × Option Err} {g : α → Nat}
    {xs : List α}
    (hseg : ∀ x ∈ xs, ∀ e ∈ (f x).1, ∀ k, phaseRank e = some k → k = g x) :
    ∀ k ∈ (seqRun f xs).1.filterMap phaseRank, ∃ x ∈ xs, k = g x := by
  intro k hk
  obtain ⟨e, he, hpe⟩ := List.mem_filterMap.mp hk
  obtain ⟨x, hx, hex⟩ := mem_seqRun he
  exact ⟨x, hx, hseg x hx e hex k hpe⟩

/-- Within the required phase's segment for type `t`, every deletion event
carries rank `typeRank t`. -/
theorem requiredPhase_rank {st : BigIPState} {env : Env} :
    ∀ t : ResourceType,
      ∀ e ∈ (seqRun (retryDelete env t) (st.resources t)).1,
        ∀ k, phaseRank e = some k → k = typeRank t := by
  intro t e he k hk
  obtain ⟨r, _, hr⟩ := mem_seqRun he
  rcases mem_retryDelete hr with ⟨res, rfl⟩ | rfl | ⟨hvlan, res, rfl⟩
  · simp only [phaseRank, Option.some.injEq] at hk
    exact hk.symm
  · simp [phaseRank] at hk
  · subst hvlan
    simp only [phaseRank, Option.some.injEq] at hk
    simp [typeRank, ← hk]

theorem requiredPhase_ranks_sorted (st : BigIPState) (env : Env) :
    ((requiredPhase st env).1.filterMap phaseRank).Sorted (· ≤ ·) :=
  seqRun_ranks_sorted (fun t _ => requiredPhase_rank t) (by decide)

theorem requiredPhase_ranks_le (st : BigIPState) (env : Env) :
    ∀ k ∈ (requiredPhase st env).1.filterMap phaseRank, k ≤ 4 := by
  intro k hk
  obtain ⟨t, ht, rfl⟩ :=
    ranks_of_seg (fun t _ => @requiredPhase_rank st env t) k hk
  cases t <;> simp [typeRank]

theorem routeDomain_ranks (st : BigIPState) (env : Env) :
    ∀ k ∈ (routeDomainPhase st env).1.filterMap phaseRank, k = 5 := by
  intro k hk
  obtain ⟨e, he, hpe⟩ := List.mem_filterMap.mp hk
  obtain ⟨d, res, rfl⟩ := mem_routeDomainPhase he
  simp only [phaseRank, Option.some.injEq] at hpe
  exact hpe.symm

theorem folder_ranks (st : BigIPState) (env : Env) (p : String) :
    ∀ k ∈ (deleteFolderCall st env p).1.filterMap phaseRank, k = 6 := by
  intro k hk
  by_cases hf : st.folderExists
  · simp [deleteFolderCall, hf, phaseRank] at hk
    exact hk
  · simp [deleteFolderCall, hf] at hk

theorem bestEffort_ranks (st : BigIPState) (env : Env) :
    (bestEffortEvents st env).filterMap phaseRank = [] := by
  rw [List.filterMap_eq_nil_iff]
  intro e he
  obtain ⟨n, res, rfl⟩ := mem_bestEffort he
  rfl

/-- The positive gate: a non-false emptiness check means the if-guard of
lines 104-106 is not taken. -/
theorem not_empty_false {st : BigIPState} (h : partition_empty st = true) :
    ¬ partition_empty st = false := by simp [h]

/-- In any teardown, the deletion events appear in nondecreasing phase rank:
snat, snatpool, snat-translation, selfip, vlan (with its fabric cleanup),
route domains, folder. -/
theorem teardown_ranks_sorted (st : BigIPState) (env : Env) (p : String) :
    (deletionRanks (remove_tenant_replication_mode st env p).1).Sorted (· ≤ ·) := by
  by_cases hpe : partition_empty st = false
  · simp [remove_tenant_replication_mode, hpe, deletionRanks]
  · have hreq := requiredPhase_ranks_sorted st env
    have hreqle := requiredPhase_ranks_le st env
    have hrd := routeDomain_ranks st env
    have hfr := folder_ranks st env p
    have hbe := bestEffort_ranks st env
    have hmid :
        ((requiredPhase st env).1.filterMap phaseRank
            ++ (routeDomainPhase st env).1.filterMap phaseRank).Sorted (· ≤ ·) := by
      refine sorted_append_le (c := 5) hreq (sorted_of_all_eq hrd) ?_ ?_
      · intro a ha; exact le_trans (hreqle a ha) (by norm_num)
      · intro b hb; rw [hrd b hb]
    cases hdel : (requiredPhase st env).2 with
    | some e =>
        unfold remove_tenant_replication_mode
        rw [if_neg hpe]
        simp only [hdel, deletionRanks, List.filterMap_append, hbe,
          List.nil_append]
        exact hreq
    | none =>
        cases hrdres : (routeDomainPhase st env).2 with
        | some e =>
            unfold remove_tenant_replication_mode
            rw [if_neg hpe]
            simp only [hdel, hrdres, deletionRanks, List.filterMap_append, hbe,
              List.nil_append]
            exact hmid
        | none =>
            unfold remove_tenant_replication_mode
            rw [if_neg hpe]
            simp only [hdel, hrdres, deletionRanks, List.filterMap_append, hbe,
              List.nil_append]
            refine sorted_append_le (c := 6) hmid (sorted_of_all_eq hfr) ?_ ?_
            · intro a ha
              rcases List.mem_append.mp ha with ha | ha
              · exact le_trans (hreqle a ha) (by norm_num)
              · rw [hrd a ha]; norm_num
            · intro b hb; rw [hfr b hb]

/-- When the emptiness gate passes, the teardown trace starts with the
best-effort events followed by the required-phase events. -/
theorem teardown_trace_prefix (st : BigIPState) (env : Env) (p : String)
    (hemp : partition_empty st = true) :
    ∃ rest, (remove_tenant_replication_mode st env p).1
      = bestEffortEvents st env ++ (requiredPhase st env).1 ++ rest := by
  unfold remove_tenant_replication_mode
  rw [if_neg (not_empty_false hemp)]
  cases hdel : (requiredPhase st env).2 with
  | some e => exact ⟨[], by simp⟩
  | none =>
      cases hrdres : (routeDomainPhase st env).2 with
      | some e =>
          exact ⟨(routeDomainPhase st env).1, by simp [List.append_assoc]⟩
      | none =>
          exact ⟨(routeDomainPhase st env).1 ++ (deleteFolderCall st env p).1,
            by simp [List.append_assoc]⟩

theorem bestEffort_filter (st : BigIPState) (env : Env) :
    (bestEffortEvents st env).filter (fun e => !isPortDealloc e) = [] := by
  rw [List.filter_eq_nil_iff]
  intro e he
  obtain ⟨n, res, rfl⟩ := mem_bestEffort he
  simp [isPortDealloc]

/-! ### The best-effort oracle does not influence the other phases -/

theorem deleteAttempt_pd (env : Env) (f : String → Option Err)
    (t : ResourceType) (r : Resource) (a : Nat) :
    deleteAttempt { env with portDeallocOutcome := f } t r a
      = deleteAttempt env t r a := rfl

theorem deleteLoop_pd (env : Env) (f : String → Option Err)
    (t : ResourceType) (r : Resource) :
    ∀ fuel a, deleteLoop { env with portDeallocOutcome := f } t r a fuel
      = deleteLoop env t r a fuel := by
  intro fuel
  induction fuel with
  | zero => intro a; rfl
  | succ n ih => intro a; simp [deleteLoop, deleteAttempt_pd, ih]

theorem seqRun_congr {α : Type} {f g : α → List Event × Option Err}
    (h : ∀ x, f x = g x) : ∀ xs, seqRun f xs = seqRun g xs := by
  intro xs
  induction xs with
  | nil => rfl
  | cons x xs ih => simp [seqRun, h x, ih]

theorem requiredPhase_pd (st : BigIPState) (env : Env) (f : String → Option Err) :
    requiredPhase st { env with portDeallocOutcome := f } = requiredPhase st env :=
  seqRun_congr
    (fun t => seqRun_congr (fun r => deleteLoop_pd env f t r 3 1) _) _

theorem routeDomainPhase_pd (st : BigIPState) (env : Env)
    (f : String → Option Err) :
    routeDomainPhase st { env with portDeallocOutcome := f }
      = routeDomainPhase st env := rfl

theorem deleteFolderCall_pd (st : BigIPState) (env : Env)
    (f : String → Option Err) (p : String) :
    deleteFolderCall st { env with portDeallocOutcome := f } p
      = deleteFolderCall st env p := rfl

/-! ### Concrete appliance states and environments for witnesses -/

/-- Deletes succeed on the first attempt and re-deletes of the now-absent
resource fail with HTTP 404; every other external call succeeds. -/
def happyEnv : Env :=
  ⟨fun _ _ a => if a = 1 then none else some (Err.http 404),
   fun _ _ => none, fun _ => none, fun _ => none, none⟩

/-- Every delete attempt fails with HTTP 500. -/
def sustained500Env : Env :=
  ⟨fun _ _ _ => some (Err.http 500),
   fun _ _ => none, fun _ => none, fun _ => none, none⟩

/-- Every delete attempt fails with HTTP 401 (expired authentication). -/
def sustained401Env : Env :=
  ⟨fun _ _ _ => some (Err.http 401),
   fun _ _ => none, fun _ => none, fun _ => none, none⟩

/-- The first delete attempt raises a non-HTTP exception. -/
def genericFailEnv : Env :=
  ⟨fun _ _ _ => some (Err.other "boom"),
   fun _ _ => none, fun _ => none, fun _ => none, none⟩

/-- Deletes behave as in `happyEnv` but the fabric cleanup fails with
HTTP 500. -/
def cleanupFailEnv : Env :=
  ⟨fun _ _ a => if a = 1 then none else some (Err.http 404),
   fun _ _ => some (Err.http 500), fun _ => none, fun _ => none, none⟩

/-- Deletes behave as in `happyEnv` but the fabric cleanup raises a non-HTTP
exception. -/
def cleanupOtherFailEnv : Env :=
  ⟨fun _ _ a => if a = 1 then none else some (Err.http 404),
   fun _ _ => some (Err.other "cleanup boom"), fun _ => none, fun _ => none,
   none⟩

/-- Deletes behave as in `happyEnv` but every route-domain delete fails. -/
def rdFailEnv : Env :=
  ⟨fun _ _ a => if a = 1 then none else some (Err.http 404),
   fun _ _ => none, fun _ => none, fun _ => some (Err.other "rd boom"), none⟩

/-- The spec's scenario: partition "ten-42" with one SnatPool, one Tap with
tag 17, no VirtualAddress and no Node; no route domains; the folder exists. -/
def scenarioState : BigIPState :=
  ⟨fun t =>
    match t with
    | ResourceType.snatpool => [⟨"sp1", 0⟩]
    | ResourceType.vlan => [⟨"tap1", 17⟩]
    | _ => [],
   [], true⟩

/-- A partition still holding one Node. -/
def nonEmptyState : BigIPState :=
  ⟨fun t =>
    match t with
    | ResourceType.node => [⟨"n1", 0⟩]
    | _ => [],
   ["rd1"], true⟩

/-- An already-empty, already-deleted partition. -/
def emptyState : BigIPState := ⟨fun _ => [], [], false⟩

/-- A partition holding one SelfIP (and one route domain) behind the empty
gate. -/
def selfipState : BigIPState :=
  ⟨fun t =>
    match t with
    | ResourceType.selfip => [⟨"ip1", 0⟩]
    | _ => [],
   [], true⟩

/-- A partition with no resources but one route domain and the folder. -/
def rdState : BigIPState := ⟨fun _ => [], ["rd0"], true⟩

/-! ### The claims -/

/-- C2: for every appliance and every partition that still contains at least
one VirtualAddress or Node instance, the teardown performs no call at all
(in particular zero deletions) and returns without error (lines 104-106). -/
theorem teardown_nonempty_noop (st : BigIPState) (env : Env) (p : String)
    (h : partition_empty st = false) :
    remove_tenant_replication_mode st env p = ([], none) := by
  simp [remove_tenant_replication_mode, h]

/-- Witness for C2 at the concrete non-empty partition. -/
theorem teardown_nonempty_noop_witness :
    partition_empty nonEmptyState = false ∧
      remove_tenant_replication_mode nonEmptyState happyEnv "part1" = ([], none) :=
  ⟨rfl, teardown_nonempty_noop nonEmptyState happyEnv "part1" rfl⟩

/-- C8: `_partition_empty` returns true iff both the VirtualAddress catalog
and the Node catalog of the partition are empty (lines 181-189). -/
theorem partition_empty_iff (st : BigIPState) :
    partition_empty st = true ↔
      st.resources ResourceType.virtual_address = [] ∧
        st.resources ResourceType.node = [] := by
  simp only [partition_empty]
  split_ifs with h
  · simp only [Bool.and_eq_true, List.isEmpty_iff] at h
    simp [h.1, h.2]
  · simp only [Bool.and_eq_true, List.isEmpty_iff] at h
    constructor
    · intro hc; exact absurd hc (by simp)
    · intro hc; exact absurd ⟨hc.2, hc.1⟩ h

/-- C10: the attempt loop does not exit on a successful delete: after a
successful first attempt the loop body runs again, every HTTP error whose
status is not 401 (in particular 404 from re-deleting an absent resource) is
silently absorbed, the loop issues 3 delete calls, and the phase reports
success (lines 138-159, which have no `break`). -/
theorem retry_loop_no_break (env : Env) (t : ResourceType) (r : Resource)
    (s2 s3 : Nat)
    (ht : effTag t r = 0)
    (h1 : env.deleteOutcome t r.name 1 = none)
    (h2 : env.deleteOutcome t r.name 2 = some (Err.http s2)) (hs2 : s2 ≠ 401)
    (h3 : env.deleteOutcome t r.name 3 = some (Err.http s3)) (hs3 : s3 ≠ 401) :
    retryDelete env t r =
      ([Event.deleteCall t r.name none,
        Event.deleteCall t r.name (some (Err.http s2)),
        Event.deleteCall t r.name (some (Err.http s3))], none) := by
  simp [retryDelete, deleteLoop, deleteAttempt, h1, h2, h3, ht, hs2, hs3]

/-- Witness for C10: a snat deleted successfully once, then re-deleted twice
with 404, three delete calls, no error. -/
theorem retry_loop_no_break_witness :
    retryDelete happyEnv ResourceType.snat ⟨"s1", 0⟩ =
      ([Event.deleteCall ResourceType.snat "s1" none,
        Event.deleteCall ResourceType.snat "s1" (some (Err.http 404)),
        Event.deleteCall ResourceType.snat "s1" (some (Err.http 404))], none) :=
  retry_loop_no_break happyEnv ResourceType.snat ⟨"s1", 0⟩ 404 404
    rfl rfl rfl (by decide) rfl (by decide)

/-- C1 counterexample: when every delete attempt fails with HTTP 500 — an
error class that is neither authentication-expired nor a non-HTTP failure —
the deletion is attempted 3 times, not once, and no error is surfaced at
all, so the claim's "attempted exactly once, aborting immediately without
retry, when the first attempt fails with any other error class" is false. -/
theorem retry_other_error_counterexample :
    countDeleteCalls ResourceType.snat "s1"
        (retryDelete sustained500Env ResourceType.snat ⟨"s1", 0⟩).1 = 3 ∧
      (retryDelete sustained500Env ResourceType.snat ⟨"s1", 0⟩).2 = none := by
  exact ⟨rfl, rfl⟩

/-- C1 (amended): on sustained HTTP 401 the delete is attempted exactly 3
times with one 1-unit sleep between each pair of attempts and the
authentication error is then surfaced; on a first-attempt non-HTTP error the
delete is attempted exactly once and aborts immediately.  (An HTTP error
with a status other than 401 is, by contrast, silently absorbed — see the
counterexample and C10.) -/
theorem retry_attempt_counts :
    (∀ (env : Env) (t : ResourceType) (r : Resource),
      (∀ a, 1 ≤ a → a ≤ 3 →
        env.deleteOutcome t r.name a = some (Err.http 401)) →
      retryDelete env t r =
        ([Event.deleteCall t r.name (some (Err.http 401)), Event.sleepCall 1,
          Event.deleteCall t r.name (some (Err.http 401)), Event.sleepCall 1,
          Event.deleteCall t r.name (some (Err.http 401))],
         some (Err.http 401))) ∧
    (∀ (env : Env) (t : ResourceType) (r : Resource) (m : String),
      env.deleteOutcome t r.name 1 = some (Err.other m) →
      retryDelete env t r =
        ([Event.deleteCall t r.name (some (Err.other m))],
         some (Err.other m))) := by
  constructor
  · intro env t r h
    have h1 := h 1 (by norm_num) (by norm_num)
    have h2 := h 2 (by norm_num) (by norm_num)
    have h3 := h 3 (by norm_num) (by norm_num)
    simp [retryDelete, deleteLoop, deleteAttempt, h1, h2, h3]
  · intro env t r m h1
    simp [retryDelete, deleteLoop, deleteAttempt, h1]

/-- Witness for C1's amended statement at concrete environments. -/
theorem retry_attempt_counts_witness :
    retryDelete sustained401Env ResourceType.snat ⟨"s1", 0⟩ =
      ([Event.deleteCall ResourceType.snat "s1" (some (Err.http 401)),
        Event.sleepCall 1,
        Event.deleteCall ResourceType.snat "s1" (some (Err.http 401)),
        Event.sleepCall 1,
        Event.deleteCall ResourceType.snat "s1" (some (Err.http 401))],
       some (Err.http 401)) ∧
    retryDelete genericFailEnv ResourceType.snat ⟨"s1", 0⟩ =
      ([Event.deleteCall ResourceType.snat "s1" (some (Err.other "boom"))],
       some (Err.other "boom")) :=
  ⟨retry_attempt_counts.1 sustained401Env ResourceType.snat ⟨"s1", 0⟩
      (fun _ _ _ => rfl),
   retry_attempt_counts.2 genericFailEnv ResourceType.snat ⟨"s1", 0⟩ "boom" rfl⟩

/-- C8 witness at a concrete state. -/
theorem partition_empty_iff_witness :
    partition_empty emptyState = true ↔
      emptyState.resources ResourceType.virtual_address = [] ∧
        emptyState.resources ResourceType.node = [] :=
  partition_empty_iff emptyState

/-- C3: deletions happen in the fixed phase order — snat, snatpool,
snat-translation, selfip, vlan (with its fabric cleanup), route domains,
folder — in every teardown (the deletion ranks of the trace are sorted); and
in the spec's scenario (one SnatPool, one Tap with tag 17) the successful
mutating calls are exactly SnatPool delete, Tap delete, fabric-cleanup(17),
folder delete, in that order, and the teardown succeeds. -/
theorem teardown_deletion_order :
    (∀ (st : BigIPState) (env : Env) (p : String),
       (deletionRanks (remove_tenant_replication_mode st env p).1).Sorted
         (· ≤ ·)) ∧
    (remove_tenant_replication_mode scenarioState happyEnv "ten-42").1.filter
        isSuccessfulMutation
      = [Event.deleteCall ResourceType.snatpool "sp1" none,
         Event.deleteCall ResourceType.vlan "tap1" none,
         Event.fabricCleanup 17 none,
         Event.deleteFolder "ten-42" none] ∧
    (remove_tenant_replication_mode scenarioState happyEnv "ten-42").2 = none := by
  refine ⟨teardown_ranks_sorted, ?_, ?_⟩ <;> rfl

/-- C4: when the required phase has succeeded and some route-domain deletion
fails, the teardown's result is that same error, unchanged, and no folder
deletion is ever attempted (lines 162-179). -/
theorem route_domain_failure_aborts (st : BigIPState) (env : Env) (p : String)
    (e : Err)
    (hemp : partition_empty st = true)
    (hreq : (requiredPhase st env).2 = none)
    (hrd : (routeDomainPhase st env).2 = some e) :
    (remove_tenant_replication_mode st env p).2 = some e ∧
      ∀ ev ∈ (remove_tenant_replication_mode st env p).1,
        isFolderDelete ev = false := by
  have hgoal : remove_tenant_replication_mode st env p
      = (bestEffortEvents st env ++ ((requiredPhase st env).1
          ++ (routeDomainPhase st env).1), some e) := by
    unfold remove_tenant_replication_mode
    rw [if_neg (not_empty_false hemp)]
    simp [hreq, hrd]
  rw [hgoal]
  refine ⟨rfl, ?_⟩
  intro ev hev
  simp only [List.mem_append] at hev
  rcases hev with hev | hev | hev
  · obtain ⟨n, res, rfl⟩ := mem_bestEffort hev
    rfl
  · obtain ⟨t, _, hcase⟩ := mem_requiredPhase hev
    rcases hcase with ⟨n, res, rfl⟩ | rfl | ⟨_, tg, res, rfl⟩ <;> rfl
  · obtain ⟨d, res, rfl⟩ := mem_routeDomainPhase hev
    rfl

/-- C4 witness: a concrete route-domain failure propagates as the result. -/
theorem route_domain_failure_aborts_witness :
    (remove_tenant_replication_mode rdState rdFailEnv "p").2
      = some (Err.other "rd boom") :=
  (route_domain_failure_aborts rdState rdFailEnv "p" (Err.other "rd boom")
      rfl rfl rfl).1

/-- C5 counterexample: the Tap's device deletion succeeds, the fabric
cleanup of tag 17 then fails with HTTP 500, yet the retrying delete finishes
with no error — the cleanup failure is swallowed, refuting "any failure of
that fabric-cleanup call is propagated as a failure of the phase, never
swallowed". -/
theorem cleanup_failure_swallowed_counterexample :
    Event.fabricCleanup 17 (some (Err.http 500))
        ∈ (retryDelete cleanupFailEnv ResourceType.vlan ⟨"tap1", 17⟩).1 ∧
      (retryDelete cleanupFailEnv ResourceType.vlan ⟨"tap1", 17⟩).2 = none := by
  exact ⟨by decide, rfl⟩

/-- C5 (amended): after a successful device-side vlan deletion with non-zero
tag the fabric cleanup is invoked for that tag immediately after the delete;
a cleanup failure that is a non-HTTP exception propagates as the phase's
failure; but a cleanup failure that is an HTTP error with status other than
401 is silently absorbed, and the loop's remaining iterations can finish
without error. -/
theorem vlan_cleanup_behavior :
    (∀ (env : Env) (r : Resource) (a : Nat),
       env.deleteOutcome ResourceType.vlan r.name a = none → r.tag ≠ 0 →
       ∃ rest, (deleteAttempt env ResourceType.vlan r a).1
         = Event.deleteCall ResourceType.vlan r.name none
             :: Event.fabricCleanup r.tag (env.cleanupOutcome r.tag a)
             :: rest) ∧
    (∀ (env : Env) (r : Resource) (m : String),
       env.deleteOutcome ResourceType.vlan r.name 1 = none → r.tag ≠ 0 →
       env.cleanupOutcome r.tag 1 = some (Err.other m) →
       retryDelete env ResourceType.vlan r
         = ([Event.deleteCall ResourceType.vlan r.name none,
             Event.fabricCleanup r.tag (some (Err.other m))],
            some (Err.other m))) ∧
    (∀ (env : Env) (r : Resource) (s : Nat),
       env.deleteOutcome ResourceType.vlan r.name 1 = none → r.tag ≠ 0 →
       env.cleanupOutcome r.tag 1 = some (Err.http s) → s ≠ 401 →
       env.deleteOutcome ResourceType.vlan r.name 2 = some (Err.http 404) →
       env.deleteOutcome ResourceType.vlan r.name 3 = some (Err.http 404) →
       (retryDelete env ResourceType.vlan r).2 = none) := by
  have heff : ∀ r : Resource, effTag ResourceType.vlan r = r.tag := by
    intro r; simp [effTag]
  refine ⟨?_, ?_, ?_⟩
  · intro env r a h1 htag
    cases hcl : env.cleanupOutcome r.tag a with
    | none => exact ⟨[], by simp [deleteAttempt, h1, heff, htag, hcl]⟩
    | some err =>
        cases err with
        | http s =>
            by_cases hs : s = 401
            · by_cases ha : a < 3
              · exact ⟨[Event.sleepCall 1],
                  by simp [deleteAttempt, h1, heff, htag, hcl, hs, ha]⟩
              · exact ⟨[], by simp [deleteAttempt, h1, heff, htag, hcl, hs, ha]⟩
            · exact ⟨[], by simp [deleteAttempt, h1, heff, htag, hcl, hs]⟩
        | other m => exact ⟨[], by simp [deleteAttempt, h1, heff, htag, hcl]⟩
  · intro env r m h1 htag hcl
    simp [retryDelete, deleteLoop, deleteAttempt, h1, hcl, heff, htag]
  · intro env r s h1 htag hcl hs h2 h3
    simp [retryDelete, deleteLoop, deleteAttempt, h1, h2, h3, hcl, hs, heff,
      htag]

/-- C5 witness: a non-HTTP cleanup failure propagates; an HTTP 500 cleanup
failure is absorbed and the delete loop still reports success. -/
theorem vlan_cleanup_behavior_witness :
    retryDelete cleanupOtherFailEnv ResourceType.vlan ⟨"tap1", 17⟩
      = ([Event.deleteCall ResourceType.vlan "tap1" none,
          Event.fabricCleanup 17 (some (Err.other "cleanup boom"))],
         some (Err.other "cleanup boom")) ∧
    (retryDelete cleanupFailEnv ResourceType.vlan ⟨"tap1", 17⟩).2 = none :=
  ⟨vlan_cleanup_behavior.2.1 cleanupOtherFailEnv ⟨"tap1", 17⟩ "cleanup boom"
      rfl (by decide) rfl,
   vlan_cleanup_behavior.2.2 cleanupFailEnv ⟨"tap1", 17⟩ 500 rfl (by decide)
      rfl (by decide) rfl rfl⟩

/-- `happyEnv` with a failing port-deallocation callback. -/
def portFailEnv : Env :=
  { happyEnv with portDeallocOutcome := fun _ => some (Err.other "port fail") }

/-- C6: the port-deallocation outcomes influence neither the teardown's
result nor any non-best-effort event (so a failing callback is swallowed and
never aborts teardown), and for every snat-translation or selfip instance,
when the phases run, its port-deallocation attempt is recorded and the
required phase still issues the device delete for that same instance. -/
theorem best_effort_isolated :
    (∀ (st : BigIPState) (env : Env) (f : String → Option Err) (p : String),
       (remove_tenant_replication_mode st
           { env with portDeallocOutcome := f } p).2
           = (remove_tenant_replication_mode st env p).2 ∧
         (remove_tenant_replication_mode st
             { env with portDeallocOutcome := f } p).1.filter
             (fun e => !isPortDealloc e)
           = (remove_tenant_replication_mode st env p).1.filter
               (fun e => !isPortDealloc e)) ∧
    (∀ (st : BigIPState) (env : Env) (p : String) (t : ResourceType)
       (r : Resource),
       (t = ResourceType.snat_translation ∨ t = ResourceType.selfip) →
       r ∈ st.resources t → partition_empty st = true →
       (requiredPhase st env).2 = none →
       Event.portDealloc r.name (env.portDeallocOutcome r.name)
           ∈ (remove_tenant_replication_mode st env p).1 ∧
         Event.deleteCall t r.name (env.deleteOutcome t r.name 1)
           ∈ (remove_tenant_replication_mode st env p).1) := by
  constructor
  · intro st env f p
    by_cases hpe : partition_empty st = false
    · simp [remove_tenant_replication_mode, hpe]
    · have hreq := requiredPhase_pd st env f
      have hrd := routeDomainPhase_pd st env f
      have hfc := deleteFolderCall_pd st env f p
      unfold remove_tenant_replication_mode
      rw [if_neg hpe, if_neg hpe, hreq, hrd, hfc]
      cases hdel : (requiredPhase st env).2 with
      | some e => simp [hdel, List.filter_append, bestEffort_filter]
      | none =>
          cases hrdres : (routeDomainPhase st env).2 with
          | some e =>
              simp [hdel, hrdres, List.filter_append, bestEffort_filter]
          | none =>
              simp [hdel, hrdres, List.filter_append, bestEffort_filter]
  · intro st env p t r htd hr hemp hreq
    obtain ⟨rest, htr⟩ := teardown_trace_prefix st env p hemp
    rw [htr]
    have hreq' : (seqRun (fun t => seqRun (retryDelete env t) (st.resources t))
        requiredTypes).2 = none := hreq
    constructor
    · refine List.mem_append.mpr (Or.inl (List.mem_append.mpr (Or.inl ?_)))
      simp only [bestEffortEvents, List.mem_flatMap, List.mem_map]
      refine ⟨t, ?_, r, hr, rfl⟩
      rcases htd with rfl | rfl <;> simp [bestEffortTypes]
    · have htyp : t ∈ requiredTypes := by
        rcases htd with rfl | rfl <;> simp [requiredTypes]
      have hinner : (seqRun (retryDelete env t) (st.resources t)).2 = none :=
        seqRun_res_none
          (f := fun u => seqRun (retryDelete env u) (st.resources u)) hreq' htyp
      obtain ⟨rest2, hhead⟩ := retryDelete_head env t r
      have hmem1 : Event.deleteCall t r.name (env.deleteOutcome t r.name 1)
          ∈ (retryDelete env t r).1 := by
        rw [hhead]; exact List.mem_cons_self _ _
      have hmem2 := subset_seqRun hinner hr hmem1
      have hmem3 : Event.deleteCall t r.name (env.deleteOutcome t r.name 1)
          ∈ (requiredPhase st env).1 :=
        subset_seqRun
          (f := fun u => seqRun (retryDelete env u) (st.resources u)) hreq' htyp hmem2
      exact List.mem_append.mpr (Or.inl (List.mem_append.mpr (Or.inr hmem3)))

/-- C6 witness: a SelfIP whose port deallocation fails; the failure changes
neither result nor mutating trace, the failed attempt is recorded, and the
SelfIP is still deleted from the device. -/
theorem best_effort_isolated_witness :
    ((remove_tenant_replication_mode selfipState portFailEnv "p").2
        = (remove_tenant_replication_mode selfipState happyEnv "p").2 ∧
      (remove_tenant_replication_mode selfipState portFailEnv "p").1.filter
          (fun e => !isPortDealloc e)
        = (remove_tenant_replication_mode selfipState happyEnv "p").1.filter
            (fun e => !isPortDealloc e)) ∧
    (Event.portDealloc "ip1" (some (Err.other "port fail"))
        ∈ (remove_tenant_replication_mode selfipState portFailEnv "p").1 ∧
      Event.deleteCall ResourceType.selfip "ip1" none
        ∈ (remove_tenant_replication_mode selfipState portFailEnv "p").1) :=
  ⟨best_effort_isolated.1 selfipState happyEnv
      (fun _ => some (Err.other "port fail")) "p",
   best_effort_isolated.2 selfipState portFailEnv "p" ResourceType.selfip
      ⟨"ip1", 0⟩ (Or.inr rfl) (by decide) rfl rfl⟩

/-- C7: teardown is idempotent on an already-empty, already-deleted
partition: invoking it twice in a row performs no calls at all, succeeds
both times, and leaves the appliance state unchanged.  (`delete_folder` is
modelled from the spec with delete-if-exists semantics, see
`deleteFolderCall`.) -/
theorem teardown_idempotent (st : BigIPState) (env : Env) (p : String)
    (hres : ∀ t, st.resources t = [])
    (hrd : st.routeDomains = [])
    (hfe : st.folderExists = false) :
    runTeardown st env p = (st, [], none) ∧
      runTeardown (runTeardown st env p).1 env p = (st, [], none) := by
  have hemp : partition_empty st = true := by simp [partition_empty, hres]
  have h : remove_tenant_replication_mode st env p = ([], none) := by
    unfold remove_tenant_replication_mode
    rw [if_neg (not_empty_false hemp)]
    simp [requiredPhase, requiredTypes, seqRun, hres, bestEffortEvents,
      bestEffortTypes, routeDomainPhase, hrd, deleteFolderCall, hfe]
  have h1 : runTeardown st env p = (st, [], none) := by
    simp [runTeardown, h, applyEvents]
  refine ⟨h1, ?_⟩
  rw [h1]
  exact h1

/-- C7 witness at the concrete empty, already-deleted partition. -/
theorem teardown_idempotent_witness :
    runTeardown emptyState happyEnv "p" = (emptyState, [], none) ∧
      runTeardown (runTeardown emptyState happyEnv "p").1 happyEnv "p"
        = (emptyState, [], none) :=
  teardown_idempotent emptyState happyEnv "p" (fun _ => rfl) rfl rfl

/-- C9: on every appliance where the partition folder already exists,
`assure_tenant_created` makes no create call against that appliance, and on
return the service dict's traffic-group field carries the resolved
traffic group (lines 61-75). -/
theorem assure_created_existing (env : CreateEnv) (service : Service)
    (b : String)
    (_hb : b ∈ service.bigips)
    (hex : env.folder_exists b (env.get_folder_name service.tenant_id) = true) :
    (∀ res, CreateEvent.create_folder b res
        ∉ (assure_tenant_created env service).2.1) ∧
      (assure_tenant_created env service).1.traffic_group
        = some ("/Common/" ++ env.get_traffic_group_1) := by
  refine ⟨?_, rfl⟩
  have key : ∀ bs : List String, ∀ res,
      CreateEvent.create_folder b res ∉
        (createLoop env (env.get_folder_name service.tenant_id)
          service.tenant_id bs).1 := by
    intro bs
    induction bs with
    | nil => intro res h; simp [createLoop] at h
    | cons y ys ih =>
        intro res h
        cases hy : env.folder_exists y (env.get_folder_name service.tenant_id) with
        | true =>
            simp only [createLoop, hy, if_true] at h
            exact ih res h
        | false =>
            cases hco : env.create_outcome y with
            | none =>
                simp [createLoop, hy, hco] at h
                rcases h with ⟨rfl, rfl⟩ | h
                · rw [hex] at hy; exact Bool.noConfusion hy
                · exact ih res h
            | some e =>
                simp [createLoop, hy, hco] at h
                obtain ⟨rfl, rfl⟩ := h
                rw [hex] at hy; exact Bool.noConfusion hy
  exact key service.bigips

/-- A create environment where the folder exists everywhere. -/
def existingFolderEnv : CreateEnv :=
  ⟨"tg1", fun tid => "Project_" ++ tid, fun _ _ => true, fun _ => none⟩

/-- A service descriptor for one appliance, traffic group not yet set. -/
def oneBigipService : Service := ⟨"t42", none, ["bigip1"]⟩

/-- C9 witness: one appliance, folder already present — no create call and
the traffic-group field is populated. -/
theorem assure_created_existing_witness :
    CreateEvent.create_folder "bigip1" none
        ∉ (assure_tenant_created existingFolderEnv oneBigipService).2.1 ∧
      (assure_tenant_created existingFolderEnv oneBigipService).1.traffic_group
        = some ("/Common/" ++ existingFolderEnv.get_traffic_group_1) :=
  ⟨(assure_created_existing existingFolderEnv oneBigipService "bigip1"
      (List.mem_singleton.mpr rfl) rfl).1 none,
   (assure_created_existing existingFolderEnv oneBigipService "bigip1"
      (List.mem_singleton.mpr rfl) rfl).2⟩

end Tenants
